import Mathlib

/-!
Verification development for the MSExcelTool backend
(src/backend/main.py, src/backend/models.py): a record store with create
and list endpoints, and a chat proxy forwarding requests to an external
generative-language API.
-/

/-- JSON-compatible values, as carried by the `rows` payload of a record. -/
inductive Json where
  | null : Json
  | bool (b : Bool) : Json
  | num (n : Int) : Json
  | str (s : String) : Json
  | arr (elems : List Json) : Json
  | obj (fields : List (String × Json)) : Json

/-- One part of a conversational unit (`types.Part`), carrying text. -/
structure TextPart where
  text : String
deriving DecidableEq

/-- One conversational unit (`types.Content`): a role tag and content parts. -/
structure Content where
  role : String
  parts : List TextPart
deriving DecidableEq

/-- A persisted file record (`models.FileRecord`). The creation instant is
modelled as a natural number; `rows` is a list of JSON objects. -/
structure FileRecord where
  id : Nat
  filename : String
  headers : List String
  rows : List (List (String × Json))
  timestamp : Nat
  description : Option String

/-- The record store: the `file_records` table plus the counter the store
uses to assign primary keys. -/
structure DB where
  nextId : Nat
  records : List FileRecord

/-- The store of a fresh process: no records, ids assigned from 1. -/
def emptyDB : DB := ⟨1, []⟩

/-- Validated body of `POST /records/` (pydantic model `FileRecordCreate`). -/
structure FileRecordCreate where
  filename : String
  headers : List String
  rows : List (List (String × Json))
  description : Option String

/-- Validated body of `POST /chat` (pydantic model `ChatRequest`); history
entries are the raw string-keyed mappings sent by the frontend. -/
structure ChatRequest where
  message : String
  history : List (List (String × String))
  data_context : String
  model : String := "gemini-2.0-flash"

/-- Validation of a single element against `f`, element by element in order
(pydantic validates each list element against the declared element type). -/
def optMapList (f : Json → Option α) : List Json → Option (List α)
  | [] => some []
  | x :: xs =>
    match f x with
    | none => none
    | some a => (optMapList f xs).map (a :: ·)

/-- Validation of a `str` field: accepts exactly JSON strings. -/
def asStr : Json → Option String
  | .str s => some s
  | _ => none

/-- Validation of a `List[str]` field: a JSON array of strings. -/
def asStrList : Json → Option (List String)
  | .arr xs => optMapList asStr xs
  | _ => none

/-- Validation of a `dict` element: any JSON object, with keys and values
unconstrained. -/
def asObj : Json → Option (List (String × Json))
  | .obj kvs => some kvs
  | _ => none

/-- Validation of a `List[dict]` field: a JSON array of objects. -/
def asObjList : Json → Option (List (List (String × Json)))
  | .arr xs => optMapList asObj xs
  | _ => none

/-- Validation of `Optional[str] = None`: an absent or null field becomes
`none`, a string is kept, anything else is rejected. -/
def asOptStr : Option Json → Option (Option String)
  | none => some none
  | some .null => some none
  | some (.str s) => some (some s)
  | some _ => none

/-- Body validation for `POST /records/` (the `FileRecordCreate` pydantic
model): the body must be an object whose `filename` is a string, `headers` a
list of strings, `rows` a list of objects; `description` is optional. -/
def validateFileRecordCreate : Json → Option FileRecordCreate
  | .obj kvs =>
    match (kvs.lookup "filename").bind asStr with
    | none => none
    | some fn =>
      match (kvs.lookup "headers").bind asStrList with
      | none => none
      | some hs =>
        match (kvs.lookup "rows").bind asObjList with
        | none => none
        | some rs =>
          match asOptStr (kvs.lookup "description") with
          | none => none
          | some d => some ⟨fn, hs, rs, d⟩
  | _ => none

/-- HTTP results of the endpoints. `validationError` is the framework reply
when body validation fails; `httpError` is a raised `HTTPException`. -/
inductive Response where
  | okRoot
  | okCreated (id : Nat)
  | okRecords (records : List FileRecord)
  | okChat (text : String)
  | validationError
  | httpError (status : Nat) (detail : String)

/-- Ordering relation putting the most recent record first
(`FileRecord.timestamp.desc()` in `get_records`). -/
def byTimestampDesc (a b : FileRecord) : Prop := b.timestamp ≤ a.timestamp

instance : DecidableRel byTimestampDesc :=
  fun a b => Nat.decLe b.timestamp a.timestamp

instance : IsTotal FileRecord byTimestampDesc :=
  ⟨fun a b => Nat.le_total b.timestamp a.timestamp⟩

instance : IsTrans FileRecord byTimestampDesc :=
  ⟨fun _ _ _ h1 h2 => Nat.le_trans h2 h1⟩

/-- `create_record`: insert a new `FileRecord` carrying the request fields,
the store-assigned id and the server clock instant `ts`, then reply
`{"id": .., "status": "saved"}`. -/
def create_record (record : FileRecordCreate) (ts : Nat) (db : DB) :
    Response × DB :=
  let r : FileRecord :=
    ⟨db.nextId, record.filename, record.headers, record.rows, ts,
      record.description⟩
  (.okCreated db.nextId, ⟨db.nextId + 1, db.records ++ [r]⟩)

/-- `get_records`: all stored records ordered by timestamp descending. -/
def get_records (db : DB) : List FileRecord :=
  List.insertionSort byTimestampDesc db.records

/-- The fixed persona directive passed as `system_instruction`. -/
def systemInstruction : String :=
  "你是一個專業的資料分析助理。請根據使用者提供的資料上下文，以繁體中文回答問題並提供有用的洞察。"

/-- The synthesized prompt embedding the data context and the user message. -/
def buildPrompt (data_context message : String) : String :=
  "資料上下文：\n" ++ data_context ++ "\n\n使用者問題：" ++ message

/-- The final conversational unit appended after the mapped history. -/
def finalUnit (req : ChatRequest) : Content :=
  ⟨"user", [⟨buildPrompt req.data_context req.message⟩]⟩

/-- The history normalization loop of `chat_with_gemini`: each entry has its
`role` and `text` looked up (a missing key raises a `KeyError`, modelled as
the error case, `role` looked up first); the role collapses to "model"
unless it is exactly "user", and the text becomes the single content part. -/
def buildHistory : List (List (String × String)) → Except String (List Content)
  | [] => .ok []
  | m :: rest =>
    match m.lookup "role" with
    | none => .error "KeyError: role"
    | some role =>
      match m.lookup "text" with
      | none => .error "KeyError: text"
      | some text =>
        (buildHistory rest).map
          (fun l =>
            Content.mk (if role = "user" then "user" else "model")
              [TextPart.mk text] :: l)

/-- The full outgoing content sequence: the normalized history followed by
the synthesized final user unit. -/
def outgoingContents (req : ChatRequest) : Except String (List Content) :=
  (buildHistory req.history).map (fun hist => hist ++ [finalUnit req])

/-- A call to `client.models.generate_content`: requested model id, content
sequence, and the fixed system instruction. -/
structure GenRequest where
  model : String
  contents : List Content
  systemInstruction : String
deriving DecidableEq

/-- The external generation API as seen by the proxy: resolves one request to
generated text, or raises. -/
abbrev Api : Type := GenRequest → Except String String

/-- `chat_with_gemini`: fail with a fixed 500 when no client is configured;
otherwise build the content sequence inside the `try` block and invoke the
external API, catching any exception as a 500 whose detail is the
stringified exception. The second component is the trace of external API
calls actually issued by the handler. -/
def chat_with_gemini (clientConfigured : Bool) (api : Api) (req : ChatRequest) :
    Response × List GenRequest :=
  if clientConfigured = false then
    (.httpError 500 "Server Gemini API Key not configured", [])
  else
    match outgoingContents req with
    | .error e => (.httpError 500 e, [])
    | .ok contents =>
      let g : GenRequest := ⟨req.model, contents, systemInstruction⟩
      match api g with
      | .error e => (.httpError 500 e, [g])
      | .ok text => (.okChat text, [g])

/-- An inbound HTTP request to one of the four endpoints. `createRecord`
carries the raw JSON body (checked by framework body validation) and the
server clock instant at insert time. -/
inductive Op where
  | root
  | createRecord (body : Json) (ts : Nat)
  | listRecords
  | chat (req : ChatRequest)

/-- Dispatch one request against the app: route to the handler, running body
validation for the create endpoint first. -/
def handle (clientConfigured : Bool) (api : Api) (op : Op) (db : DB) :
    Response × DB :=
  match op with
  | .root => (.okRoot, db)
  | .createRecord body ts =>
    match validateFileRecordCreate body with
    | none => (.validationError, db)
    | some rec => create_record rec ts db
  | .listRecords => (.okRecords (get_records db), db)
  | .chat req => ((chat_with_gemini clientConfigured api req).1, db)

/-- A sequence of creates: fold `create_record` over the inputs, each with
its server clock instant. -/
def createMany (inputs : List (FileRecordCreate × Nat)) (db : DB) : DB :=
  inputs.foldl (fun d p => (create_record p.1 p.2 d).2) db

/-- Stated from the spec wording, for comparison with the code: the
normalized conversational unit for one well-formed history entry — role
"user" when the entry's role is "user", otherwise "model", carrying the
entry's text as its single content part. -/
def specHistUnit (m : List (String × String)) : Content :=
  ⟨if (m.lookup "role").getD "" = "user" then "user" else "model",
   [⟨(m.lookup "text").getD ""⟩]⟩

/-- Helper: a well-formed history (every entry has `role` and `text` keys)
is normalized entrywise, in order. -/
theorem buildHistory_wellFormed (hs : List (List (String × String)))
    (h : ∀ m ∈ hs, (m.lookup "role").isSome ∧ (m.lookup "text").isSome) :
    buildHistory hs = .ok (hs.map specHistUnit) := by
  induction hs with
  | nil => rfl
  | cons m rest ih =>
    obtain ⟨hr, ht⟩ := h m (List.mem_cons_self _ _)
    obtain ⟨role, hrole⟩ := Option.isSome_iff_exists.mp hr
    obtain ⟨text, htext⟩ := Option.isSome_iff_exists.mp ht
    have ihh := ih (fun m hm => h m (List.mem_cons_of_mem _ hm))
    simp [buildHistory, hrole, htext, ihh, specHistUnit, Except.map]

/-- Helper: a history containing an entry without a `role` or `text` key
makes the normalization loop raise one of the two lookup errors. -/
theorem buildHistory_errors_of_malformed (hs : List (List (String × String)))
    (h : ∃ m ∈ hs, m.lookup "role" = none ∨ m.lookup "text" = none) :
    ∃ e, buildHistory hs = .error e
      ∧ (e = "KeyError: role" ∨ e = "KeyError: text") := by
  induction hs with
  | nil => simp at h
  | cons m rest ih =>
    cases hr : m.lookup "role" with
    | none => exact ⟨"KeyError: role", by simp [buildHistory, hr], Or.inl rfl⟩
    | some role =>
      cases ht : m.lookup "text" with
      | none =>
        exact ⟨"KeyError: text", by simp [buildHistory, hr, ht], Or.inr rfl⟩
      | some text =>
        have hrest : ∃ m2 ∈ rest,
            m2.lookup "role" = none ∨ m2.lookup "text" = none := by
          obtain ⟨m0, hm0, hbad⟩ := h
          rcases List.mem_cons.mp hm0 with heq | hmem
          · subst heq
            rcases hbad with hb | hb
            · rw [hr] at hb; exact absurd hb (by simp)
            · rw [ht] at hb; exact absurd hb (by simp)
          · exact ⟨m0, hmem, hbad⟩
        obtain ⟨e, he, hor⟩ := ih hrest
        exact ⟨e, by simp [buildHistory, hr, ht, he, Except.map], hor⟩

/-- Helper: validating a list of string literals recovers the strings. -/
theorem optMapList_asStr_map (hs : List String) :
    optMapList asStr (hs.map Json.str) = some hs := by
  induction hs with
  | nil => rfl
  | cons s rest ih => simp [optMapList, asStr, ih]

/-- Helper: validating a list of object literals recovers the objects. -/
theorem optMapList_asObj_map (rows : List (List (String × Json))) :
    optMapList asObj (rows.map Json.obj) = some rows := by
  induction rows with
  | nil => rfl
  | cons kvs rest ih => simp [optMapList, asObj, ih]

/-- Helper: a sequence of creates only appends to the stored records. -/
theorem createMany_records_append (inputs : List (FileRecordCreate × Nat))
    (db : DB) :
    ∃ t, (createMany inputs db).records = db.records ++ t := by
  induction inputs generalizing db with
  | nil => exact ⟨[], by simp [createMany]⟩
  | cons p rest ih =>
    obtain ⟨t, ht⟩ := ih (create_record p.1 p.2 db).2
    refine ⟨⟨db.nextId, p.1.filename, p.1.headers, p.1.rows, p.2,
      p.1.description⟩ :: t, ?_⟩
    have hstep : createMany (p :: rest) db
        = createMany rest (create_record p.1 p.2 db).2 := rfl
    rw [hstep, ht]
    simp [create_record]

/-- Helper: creates preserve the id invariant — every stored id is below the
counter and the stored ids are strictly increasing in insertion order. -/
theorem createMany_id_invariant (inputs : List (FileRecordCreate × Nat))
    (db : DB)
    (hlt : ∀ r ∈ db.records, r.id < db.nextId)
    (hmono : (db.records.map (fun r => r.id)).Pairwise (· < ·)) :
    (∀ r ∈ (createMany inputs db).records, r.id < (createMany inputs db).nextId)
      ∧ ((createMany inputs db).records.map (fun r => r.id)).Pairwise (· < ·) := by
  induction inputs generalizing db with
  | nil => exact ⟨hlt, hmono⟩
  | cons p rest ih =>
    apply ih
    · intro r hr
      simp only [create_record, List.mem_append, List.mem_singleton] at hr
      rcases hr with hr | hr
      · exact Nat.lt_succ_of_lt (hlt r hr)
      · subst hr; exact Nat.lt_succ_self _
    · simp only [create_record, List.map_append, List.map_cons, List.map_nil]
      refine List.pairwise_append.mpr ⟨hmono, List.pairwise_singleton _ _, ?_⟩
      intro x hx y hy
      simp only [List.mem_map] at hx
      simp only [List.mem_singleton] at hy
      obtain ⟨r, hrmem, hrid⟩ := hx
      subst hy; subst hrid
      exact hlt r hrmem

/-- C1: for every chat request, the synthesized final conversational unit of
the outgoing content sequence has role "user" and its text is exactly the
fixed labeled template — the data-context label, the raw data_context, a
blank line, the question label, and the raw message, both strings verbatim
and in that order. -/
theorem chat_final_unit_is_labeled_prompt (req : ChatRequest)
    (contents : List Content) (h : outgoingContents req = .ok contents) :
    contents.getLast? = some (Content.mk "user"
      [TextPart.mk ("資料上下文：\n" ++ req.data_context
        ++ "\n\n使用者問題：" ++ req.message)]) := by
  unfold outgoingContents at h
  cases hb : buildHistory req.history with
  | error e => rw [hb] at h; exact absurd h (by simp [Except.map])
  | ok hist =>
    rw [hb] at h
    simp only [Except.map] at h
    injection h with h
    subst h
    simp [finalUnit, buildPrompt]

/-- Witness for C1 at the P5 example: data context "Q1 sales" and message
"What was the peak month?" with an empty history. -/
theorem chat_final_unit_is_labeled_prompt_witness :
    ([⟨"user", [⟨"資料上下文：\nQ1 sales\n\n使用者問題：What was the peak month?"⟩]⟩]
        : List Content).getLast?
      = some (Content.mk "user"
          [TextPart.mk ("資料上下文：\n" ++ "Q1 sales"
            ++ "\n\n使用者問題：" ++ "What was the peak month?")]) :=
  chat_final_unit_is_labeled_prompt
    ⟨"What was the peak month?", [], "Q1 sales", "gemini-2.0-flash"⟩ _ rfl

/-- C2: for a history of any length whose entries all carry `role` and `text`
keys, the outgoing sequence is exactly the entries mapped in order to
normalized units — role "user" when the entry's role is "user" and "model"
otherwise, text as the single content part — followed by exactly one
synthesized final user unit. -/
theorem chat_history_mapping (req : ChatRequest)
    (h : ∀ m ∈ req.history,
      (m.lookup "role").isSome ∧ (m.lookup "text").isSome) :
    outgoingContents req
      = .ok (req.history.map specHistUnit ++ [finalUnit req]) := by
  unfold outgoingContents
  rw [buildHistory_wellFormed req.history h]
  rfl

/-- Witness for C2 at a two-entry history: a "user" entry and an "assistant"
entry (the latter collapsing to role "model"). -/
theorem chat_history_mapping_witness :
    outgoingContents
        ⟨"q", [[("role", "user"), ("text", "hi")],
               [("role", "assistant"), ("text", "yo")]], "ctx", "m"⟩
      = .ok ([[("role", "user"), ("text", "hi")],
              [("role", "assistant"), ("text", "yo")]].map specHistUnit
          ++ [finalUnit ⟨"q", [[("role", "user"), ("text", "hi")],
               [("role", "assistant"), ("text", "yo")]], "ctx", "m"⟩]) :=
  chat_history_mapping
    ⟨"q", [[("role", "user"), ("text", "hi")],
           [("role", "assistant"), ("text", "yo")]], "ctx", "m"⟩
    (by decide)

/-- C3: with no external-API credential configured, every chat call returns
HTTP 500 with the fixed missing-configuration message and makes no external
call, for any request body — including bodies whose history would fail the
mapping step, showing the check precedes the history mapping; the record
endpoints behave identically whether or not the credential is configured. -/
theorem chat_unconfigured_always_500 :
    (∀ (api : Api) (req : ChatRequest),
        chat_with_gemini false api req
          = (.httpError 500 "Server Gemini API Key not configured", []))
    ∧ (∀ (api : Api) (req : ChatRequest) (db : DB),
        handle false api (.chat req) db
          = (.httpError 500 "Server Gemini API Key not configured", db))
    ∧ (∀ (api1 api2 : Api) (body : Json) (ts : Nat) (db : DB),
        handle false api1 (.createRecord body ts) db
          = handle true api2 (.createRecord body ts) db)
    ∧ (∀ (api1 api2 : Api) (db : DB),
        handle false api1 .listRecords db = handle true api2 .listRecords db) :=
  ⟨fun _ _ => rfl, fun _ _ _ => rfl, fun _ _ _ _ _ => rfl, fun _ _ _ => rfl⟩

/-- C4: if the external generation call raises any exception, the proxy
catches it and returns HTTP 500 whose detail is the stringified exception,
having issued exactly one external call — no retry and no partial result. -/
theorem chat_api_error_surfaced (api : Api) (req : ChatRequest)
    (contents : List Content) (e : String)
    (hc : outgoingContents req = .ok contents)
    (he : api ⟨req.model, contents, systemInstruction⟩ = .error e) :
    chat_with_gemini true api req
      = (.httpError 500 e, [⟨req.model, contents, systemInstruction⟩]) := by
  simp [chat_with_gemini, hc, he]

/-- Witness for C4: an API that raises "boom" on a concrete request. -/
theorem chat_api_error_surfaced_witness :
    chat_with_gemini true (fun _ => .error "boom") ⟨"hi", [], "ctx", "m"⟩
      = (.httpError 500 "boom",
          [⟨"m", [⟨"user", [⟨"資料上下文：\nctx\n\n使用者問題：hi"⟩]⟩],
            systemInstruction⟩]) :=
  chat_api_error_surfaced (fun _ => .error "boom") ⟨"hi", [], "ctx", "m"⟩
    [⟨"user", [⟨"資料上下文：\nctx\n\n使用者問題：hi"⟩]⟩] "boom" rfl rfl

/-- C5: the list endpoint returns all stored records — a permutation of the
store — in non-increasing (descending) timestamp order, and returns the
empty sequence when no records exist. -/
theorem get_records_sorted_desc :
    (∀ db : DB, (get_records db).Perm db.records
        ∧ (get_records db).Pairwise byTimestampDesc)
    ∧ (∀ n : Nat, get_records ⟨n, []⟩ = []) :=
  ⟨fun db => ⟨List.perm_insertionSort byTimestampDesc db.records,
    List.sorted_insertionSort byTimestampDesc db.records⟩,
   fun _ => rfl⟩

/-- C6: creating a record from any input (absent description included) and
then listing yields an entry whose filename, headers, rows and description
equal the input exactly. -/
theorem create_then_list_roundtrip (input : FileRecordCreate) (ts : Nat)
    (db : DB) :
    ∃ r ∈ get_records (create_record input ts db).2,
      r.filename = input.filename ∧ r.headers = input.headers
        ∧ r.rows = input.rows ∧ r.description = input.description := by
  refine ⟨⟨db.nextId, input.filename, input.headers, input.rows, ts,
    input.description⟩, ?_, rfl, rfl, rfl, rfl⟩
  have hperm := List.perm_insertionSort byTimestampDesc
    (create_record input ts db).2.records
  apply hperm.mem_iff.mpr
  simp [create_record]

/-- C7: if some history entry lacks a `role` or `text` key while a credential
is configured, the chat call surfaces the lookup failure as a generic HTTP
500 server error (one of the two lookup errors, not a descriptive client
error), and the external API is never called. -/
theorem chat_malformed_history_500 (api : Api) (req : ChatRequest)
    (h : ∃ m ∈ req.history, m.lookup "role" = none ∨ m.lookup "text" = none) :
    ∃ e, chat_with_gemini true api req = (.httpError 500 e, [])
      ∧ (e = "KeyError: role" ∨ e = "KeyError: text") := by
  obtain ⟨e, he, hor⟩ := buildHistory_errors_of_malformed req.history h
  refine ⟨e, ?_, hor⟩
  simp [chat_with_gemini, outgoingContents, he, Except.map]

/-- Witness for C7: a single history entry carrying only a `text` key. -/
theorem chat_malformed_history_500_witness :
    ∃ e, chat_with_gemini true (fun _ => .ok "ans")
          ⟨"q", [[("text", "hi")]], "c", "m"⟩ = (.httpError 500 e, [])
      ∧ (e = "KeyError: role" ∨ e = "KeyError: text") :=
  chat_malformed_history_500 (fun _ => .ok "ans")
    ⟨"q", [[("text", "hi")]], "c", "m"⟩
    ⟨[("text", "hi")], by decide, Or.inl (by decide)⟩

/-- C8: over any sequence of creates from a fresh store the assigned ids are
strictly increasing in insertion order, and a create never touches the
records already stored (ids stable, existing records only ever extended). -/
theorem record_ids_monotone :
    (∀ inputs : List (FileRecordCreate × Nat),
        ((createMany inputs emptyDB).records.map (fun r => r.id)).Pairwise (· < ·))
    ∧ (∀ (db : DB) (inputs : List (FileRecordCreate × Nat)),
        ∃ t, (createMany inputs db).records = db.records ++ t) :=
  ⟨fun inputs =>
    (createMany_id_invariant inputs emptyDB (by simp [emptyDB])
      (by simp [emptyDB])).2,
   fun db inputs => createMany_records_append inputs db⟩

/-- C9: no exposed operation mutates or deletes an existing record — every
operation leaves the stored records as an unchanged prefix of the new store
(create only appends), and the health, list and chat operations leave the
store entirely unchanged. -/
theorem no_record_mutation :
    (∀ (cfg : Bool) (api : Api) (op : Op) (db : DB),
        ∃ t, (handle cfg api op db).2.records = db.records ++ t)
    ∧ (∀ (cfg : Bool) (api : Api) (db : DB), (handle cfg api .root db).2 = db)
    ∧ (∀ (cfg : Bool) (api : Api) (db : DB),
        (handle cfg api .listRecords db).2 = db)
    ∧ (∀ (cfg : Bool) (api : Api) (req : ChatRequest) (db : DB),
        (handle cfg api (.chat req) db).2 = db) := by
  refine ⟨?_, fun _ _ _ => rfl, fun _ _ _ => rfl, fun _ _ _ _ => rfl⟩
  intro cfg api op db
  cases op with
  | root => exact ⟨[], by simp [handle]⟩
  | createRecord body ts =>
    cases hv : validateFileRecordCreate body with
    | none => exact ⟨[], by simp [handle, hv]⟩
    | some rec =>
      exact ⟨[⟨db.nextId, rec.filename, rec.headers, rec.rows, ts,
        rec.description⟩], by simp [handle, hv, create_record]⟩
  | listRecords => exact ⟨[], by simp [handle]⟩
  | chat req => exact ⟨[], by simp [handle]⟩

/-- C10: body validation of the create endpoint enforces the declared
top-level types before any write — any body it rejects (in particular one
whose filename is not a string, whose headers is not a list of strings, or
whose rows is not a list of objects) yields a client validation error with
the store unchanged — while row objects with arbitrary keys and values all
pass validation. -/
theorem create_validation_boundary :
    (∀ (body : Json) (db : DB) (ts : Nat) (cfg : Bool) (api : Api),
        validateFileRecordCreate body = none →
          handle cfg api (.createRecord body ts) db = (.validationError, db))
    ∧ (∀ (kvs : List (String × Json)) (j : Json),
        kvs.lookup "filename" = some j → asStr j = none →
          validateFileRecordCreate (.obj kvs) = none)
    ∧ (∀ (kvs : List (String × Json)) (j : Json),
        kvs.lookup "headers" = some j → asStrList j = none →
          validateFileRecordCreate (.obj kvs) = none)
    ∧ (∀ (kvs : List (String × Json)) (j : Json),
        kvs.lookup "rows" = some j → asObjList j = none →
          validateFileRecordCreate (.obj kvs) = none)
    ∧ (∀ (fn : String) (hs : List String)
          (rows : List (List (String × Json))),
        validateFileRecordCreate (.obj [("filename", .str fn),
            ("headers", .arr (hs.map .str)), ("rows", .arr (rows.map .obj))])
          = some ⟨fn, hs, rows, none⟩) := by
  refine ⟨?_, ?_, ?_, ?_, ?_⟩
  · intro body db ts cfg api hv
    simp [handle, hv]
  · intro kvs j hl ha
    simp [validateFileRecordCreate, hl, ha]
  · intro kvs j hl ha
    cases hfn : (kvs.lookup "filename").bind asStr with
    | none => simp [validateFileRecordCreate, hfn]
    | some fn => simp [validateFileRecordCreate, hfn, hl, ha]
  · intro kvs j hl ha
    cases hfn : (kvs.lookup "filename").bind asStr with
    | none => simp [validateFileRecordCreate, hfn]
    | some fn =>
      cases hhs : (kvs.lookup "headers").bind asStrList with
      | none => simp [validateFileRecordCreate, hfn, hhs]
      | some hs => simp [validateFileRecordCreate, hfn, hhs, hl, ha]
  · intro fn hs rows
    simp [validateFileRecordCreate, List.lookup, asStr, asStrList, asObjList,
      asOptStr, optMapList_asStr_map, optMapList_asObj_map]

/-- Witness for C10: a numeric filename is rejected with the store unchanged,
and the scenario body with arbitrary numeric row values passes validation. -/
theorem create_validation_boundary_witness :
    handle true (fun _ => .ok "") (.createRecord (.obj [("filename", .num 3)]) 0)
        emptyDB = (.validationError, emptyDB)
    ∧ validateFileRecordCreate (.obj [("filename", .num 3)]) = none
    ∧ validateFileRecordCreate (.obj [("filename", .str "a.csv"),
        ("headers", .arr [.str "x", .str "y"]),
        ("rows", .arr [.obj [("x", .num 1), ("y", .num 2)]])])
      = some ⟨"a.csv", ["x", "y"], [[("x", .num 1), ("y", .num 2)]], none⟩ :=
  ⟨create_validation_boundary.1 (.obj [("filename", .num 3)]) emptyDB 0 true
      (fun _ => .ok "") rfl,
   create_validation_boundary.2.1 [("filename", .num 3)] (.num 3) rfl rfl,
   create_validation_boundary.2.2.2.2 "a.csv" ["x", "y"]
     [[("x", .num 1), ("y", .num 2)]]⟩
